import Mathlib

/-!
# SOCKS5 connection engine (net/socks5)

A shallow embedding of `init.go`, `conn.go` and the per-connection handler of
`server.go`, followed by theorems about the handshake negotiator and the
connection orchestrator.

Conventions of the embedding:

* a byte is a `Fin 256`, a `uint16` is a `Fin 65536`;
* a Go function returning `error` returns a `GoResult`: `nil`, an error value,
  or a run-time panic (out-of-range index, nil dereference);
* the effects of a connection (client reads and writes, dial calls, spawned
  copy goroutines, closes, log lines) are recorded in order in a trace;
* everything the package calls but does not define in these three files
  (the client stream, the dial capability, the request decoder, the response
  encoder, the `net` and `strconv` helpers) is a field of `Env`.
-/

namespace Socks5

/-! ## Data model -/

abbrev Byte := Fin 256

/-- SOCKS5Version is the byte that represents the SOCKS version in requests (server.go). -/
def SOCKS5Version : Byte := 5

abbrev Command := Byte

def Connect : Command := 1
def Bind : Command := 2
def UDPAssociate : Command := 3

abbrev Addr := Byte

def IPv4 : Addr := 1
def DomainName : Addr := 3
def IPv6 : Addr := 4

def noAuthRequired : Byte := 0
def noAcceptableAuth : Byte := 255

def maxInitRequestSize : Nat := 257

/-- Modelled from the spec: the reply code `Success` (REP = 0); its declaration is not in
the three source files. -/
def Success : Byte := 0

/-- Modelled from the spec: the reply code `GeneralFailure` (REP = 1); its declaration is
not in the three source files. -/
def GeneralFailure : Byte := 1

/-- Modelled from the spec: the reply code `CommandNotSupported` (REP = 7); its declaration
is not in the three source files. -/
def CommandNotSupported : Byte := 7

/-- Error values. The first four are built by `HandleInitPacket`, the fifth by
`handleRequest`; `other` is an error handed back by a collaborator (a client read, the
request decoder, the dial capability, the response encoder, `net.SplitHostPort`). -/
inductive Error where
  | invalidReadPacket
  | incompatibleVersion
  | incorrectNMethods (count : Nat) (avail : Nat)
  | noAcceptableAuthMethods
  | unsupportedCommand (cmd : Command)
  | other (msg : String)
  deriving DecidableEq, Repr

/-- The text of an error value, as the `fmt.Errorf` calls build it. -/
def Error.msg : Error → String
  | .invalidReadPacket => "invalid read packet"
  | .incompatibleVersion => "incompatible SOCKS version"
  | .incorrectNMethods count avail =>
      "incorrect nmethods specified: " ++ toString count ++ " vs " ++ toString avail
  | .noAcceptableAuthMethods => "no acceptable auth methods"
  | .unsupportedCommand cmd => "unsupported command " ++ toString cmd.val
  | .other msg => msg

/-- Run-time panics of the Go code. -/
inductive Panic where
  | indexOutOfRange (index : Nat) (length : Nat)
  | sliceOutOfRange (low : Nat) (length : Nat)
  | nilDereference
  deriving DecidableEq, Repr

/-- Outcome of a Go function whose only result is an `error`. -/
inductive GoResult where
  | nil
  | error (err : Error)
  | panic (p : Panic)
  deriving DecidableEq, Repr

/-- Modelled from the spec: the `request` struct (command, address type, destination,
port); conn.go reads its fields `command`, `destination` and `port`, the declaration is
not in the three source files. -/
structure request where
  command : Command
  addressType : Addr
  destination : String
  port : Fin 65536
  deriving DecidableEq, Repr

/-- The `Response` struct, with the fields conn.go fills in; an omitted field has Go's
zero value. -/
structure Response where
  reply : Byte := 0
  addrType : Addr := 0
  bindAddr : String := ""
  bindPort : Fin 65536 := 0
  deriving DecidableEq, Repr

/-- An established outbound stream, as far as conn.go looks at it: the text of its
local address (`LocalAddr().String()`). -/
structure NetConn where
  localAddr : String
  deriving DecidableEq, Repr

/-- The two streams of a connection. -/
inductive Endpoint where
  | client
  | server
  deriving DecidableEq, Repr

/-- Observable effects, in the order the code performs them. -/
inductive Event where
  | clientRead (bufLen : Nat)
  | clientWrite (buf : List Byte)
  | dial (network : String) (addr : String)
  | goCopy (dst : Endpoint) (src : Endpoint)
  | logf (line : String)
  | clientClose
  | serverClose
  deriving DecidableEq, Repr

/-- Everything a connection calls that the three source files do not define.
`clientRead k` is what the `k`-th `Read` on the client stream delivers; the dial
capability answers within its deadline or with an error. -/
structure Env where
  clientRead : Nat → Except Error (List Byte)
  maxRequestPacketSize : Nat
  parseRequestFromPacket : List Byte → Except Error request
  createPacketFromResponse : Response → List Byte × Option Error
  dialContext : String → String → Except Error NetConn
  splitHostPort : String → Except Error (String × String)
  atoi : String → Int
  parseIP : String → Option (List Byte)
  to4 : List Byte → Option (List Byte)

/-- The `Conn` struct: the fields the methods fill in as the transaction progresses. -/
structure Conn where
  server : Option NetConn
  request : Option request
  deriving DecidableEq, Repr

/-- A connection in flight: the `Conn` struct, the number of client reads done so far,
and the effects performed so far. -/
structure State where
  conn : Conn
  reads : Nat
  trace : List Event
  deriving DecidableEq, Repr

/-- The state the handler starts `Run` in: `Conn{client: c, dialContext: dialContext}`. -/
def State.init : State :=
  { conn := { server := none, request := none }, reads := 0, trace := [] }

def State.emit (s : State) (e : Event) : State :=
  { s with trace := s.trace ++ [e] }

/-! ## init.go -/

/-- The loop `for _, m := range pkt[2:]` of `HandleInitPacket`, with the final
`return` after it. -/
def scanMethods : List Byte → GoResult
  | [] => .error .noAcceptableAuthMethods
  | m :: rest => if m = noAuthRequired then .nil else scanMethods rest

/-- HandleInitPacket of init.go. Every index and slice expression is bounds-checked as
the Go run time does it. -/
def HandleInitPacket (pkt : List Byte) : GoResult :=
  let sz := pkt.length
  if sz < 3 then .error .invalidReadPacket
  else
    match pkt[0]? with
    | none => .panic (.indexOutOfRange 0 sz)
    | some version =>
      if version ≠ SOCKS5Version then .error .incompatibleVersion
      else
        match pkt[1]? with
        | none => .panic (.indexOutOfRange 1 sz)
        | some nmethods =>
          let count := nmethods.val
          if sz < count + 2 then .error (.incorrectNMethods count (sz - 2))
          else if sz < 2 then .panic (.sliceOutOfRange 2 sz)
          else scanMethods (pkt.drop 2)

/-! ## conn.go -/

/-- One `conn.client.Read(buf)` with a buffer of `bufLen` bytes: the slice `buf[:n]` or
the read error. -/
def clientRead (w : Env) (s : State) (bufLen : Nat) : State × Except Error (List Byte) :=
  ({ s with reads := s.reads + 1, trace := s.trace ++ [.clientRead bufLen] },
   match w.clientRead s.reads with
   | .ok data => .ok (data.take bufLen)
   | .error err => .error err)

/-- The conversion `uint16(serverPort)` of an `int`. -/
def uint16 (n : Int) : Fin 65536 := Fin.ofNat (n % 65536).toNat

/-- The address-type choice of `createReply` (lines 106-115). -/
def classifyAddr (w : Env) (serverAddr : String) : Addr :=
  match w.parseIP serverAddr with
  | some ip => if (w.to4 ip).isSome then IPv4 else IPv6
  | none => DomainName

/-- Conn.createReply of conn.go. The 5-second deadline is handed to the dial capability:
a dial that does not complete in time is a dial that returns an error. -/
def createReply (w : Env) (s : State) : State × GoResult :=
  match s.conn.request with
  | none => (s, .panic .nilDereference)
  | some req =>
    let addr := req.destination ++ ":" ++ toString req.port.val
    let s := s.emit (.dial "tcp" addr)
    match w.dialContext "tcp" addr with
    | .error err =>
      let buf := (w.createPacketFromResponse { reply := GeneralFailure }).1
      (s.emit (.clientWrite buf), .error err)
    | .ok srv =>
      let s := { s with conn := { s.conn with server := some srv } }
      match w.splitHostPort srv.localAddr with
      | .error err => (s, .error err)
      | .ok (serverAddr, serverPortStr) =>
        let serverPort := w.atoi serverPortStr
        let s := s.emit (.goCopy .client .server)
        let s := s.emit (.goCopy .server .client)
        let addrType := classifyAddr w serverAddr
        match w.createPacketFromResponse
            { reply := Success, addrType := addrType, bindAddr := serverAddr,
              bindPort := uint16 serverPort } with
        | (_, some err) =>
          let buf := (w.createPacketFromResponse { reply := GeneralFailure }).1
          (s.emit (.clientWrite buf), .error err)
        | (buf, none) => (s.emit (.clientWrite buf), .nil)

/-- Conn.handleRequest of conn.go. -/
def handleRequest (w : Env) (s : State) : State × GoResult :=
  match clientRead w s w.maxRequestPacketSize with
  | (s, .error err) => (s, .error err)
  | (s, .ok pkt) =>
    match w.parseRequestFromPacket pkt with
    | .error err =>
      let buf := (w.createPacketFromResponse { reply := GeneralFailure }).1
      (s.emit (.clientWrite buf), .error err)
    | .ok req =>
      if req.command ≠ Connect then
        let buf := (w.createPacketFromResponse { reply := CommandNotSupported }).1
        (s.emit (.clientWrite buf), .error (.unsupportedCommand req.command))
      else
        createReply w { s with conn := { s.conn with request := some req } }

/-- Conn.Run of conn.go. -/
def Run (w : Env) (s : State) : State × GoResult :=
  match clientRead w s maxInitRequestSize with
  | (s, .error err) => (s, .error err)
  | (s, .ok pkt) =>
    match HandleInitPacket pkt with
    | .panic p => (s, .panic p)
    | .error err => (s.emit (.clientWrite [SOCKS5Version, noAcceptableAuth]), .error err)
    | .nil => handleRequest w (s.emit (.clientWrite [SOCKS5Version, noAuthRequired]))

/-! ## server.go -/

/-- The goroutine `ListenAndServe` spawns for an accepted client: run the connection and,
if `Run` returns an error, log it and close the client. A panic ends the goroutine on the
spot. -/
def handler (w : Env) : State :=
  match Run w State.init with
  | (s, .error err) =>
    (s.emit (.logf ("socks5: client connection failed: " ++ err.msg))).emit .clientClose
  | (s, _) => s

/-! ## Stand-ins for the collaborators, used in the concrete scenarios

The scenarios follow the end-to-end example of the specification: the client sends
`[5, 1, 0]`, then a CONNECT request for 127.0.0.1:8080; the outbound stream is bound
locally to 127.0.0.1:9000. -/

namespace Scenario

/-- Stand-in for the request decoder: the layout of the specification (version, command,
reserved, address type, address, big-endian port) for IPv4 addresses; every other input
is a decode error. -/
def parseRequestFromPacket : List Byte → Except Error request
  | [ver, cmd, _, atyp, a, b, c, d, hi, lo] =>
    if ver = SOCKS5Version ∧ atyp = IPv4 then
      .ok { command := cmd, addressType := atyp,
            destination := toString a.val ++ "." ++ toString b.val ++ "." ++
              toString c.val ++ "." ++ toString d.val,
            port := Fin.ofNat (hi.val * 256 + lo.val) }
    else .error (.other "invalid request")
  | _ => .error (.other "invalid request")

/-- Stand-in for the response encoder: version, reply code, reserved byte, address type,
and for a `Success` response the address bytes and the big-endian port. The only bound
address of the scenarios is 127.0.0.1. -/
def createPacketFromResponse (res : Response) : List Byte × Option Error :=
  let pkt : List Byte := [SOCKS5Version, res.reply, 0, res.addrType]
  if res.reply ≠ Success then (pkt, none)
  else if res.addrType = IPv4 ∧ res.bindAddr = "127.0.0.1" then
    (pkt ++ [127, 0, 0, 1] ++ [Fin.ofNat (res.bindPort.val / 256), Fin.ofNat (res.bindPort.val % 256)],
     none)
  else ([], some (.other "invalid bind address"))

/-- Stand-in for `net.SplitHostPort` on the two local addresses of the scenarios:
"127.0.0.1:9000" splits into host and port; "pipe", which has no colon, gives the
`AddrError` of the library, whose text is `address <hostport>: missing port in address`. -/
def splitHostPort (hostport : String) : Except Error (String × String) :=
  if hostport = "127.0.0.1:9000" then .ok ("127.0.0.1", "9000")
  else .error (.other ("address " ++ hostport ++ ": missing port in address"))

/-- Stand-in for `strconv.Atoi` on the port texts of the scenarios (0 on anything else,
as the code drops the conversion error). -/
def atoi (text : String) : Int :=
  if text = "9000" then 9000 else 0

/-- Stand-in for `net.ParseIP` on the host texts of the scenarios: the 16-byte form. -/
def parseIP (text : String) : Option (List Byte) :=
  if text = "127.0.0.1" then some [0, 0, 0, 0, 0, 0, 0, 0, 0, 0, 255, 255, 127, 0, 0, 1]
  else none

/-- The method `IP.To4`: a 4-byte address, or a 16-byte IPv4-mapped one. -/
def to4 (ip : List Byte) : Option (List Byte) :=
  if ip.length = 4 then some ip
  else if ip.length = 16 ∧ ip.take 10 = List.replicate 10 0 ∧ ip[10]? = some 255 ∧
      ip[11]? = some 255 then some (ip.drop 12)
  else none

/-- The end-to-end scenario: handshake, CONNECT to 127.0.0.1:8080, dial succeeds. -/
def env : Env where
  clientRead := fun k =>
    match k with
    | 0 => .ok [5, 1, 0]
    | 1 => .ok [5, 1, 0, 1, 127, 0, 0, 1, 0x1F, 0x90]
    | _ => .error (.other "EOF")
  maxRequestPacketSize := 262
  parseRequestFromPacket := parseRequestFromPacket
  createPacketFromResponse := createPacketFromResponse
  dialContext := fun _ _ => .ok { localAddr := "127.0.0.1:9000" }
  splitHostPort := splitHostPort
  atoi := atoi
  parseIP := parseIP
  to4 := to4

/-- The client is gone before it sends anything: the first read fails. -/
def envNoInit : Env :=
  { env with clientRead := fun _ => .error (.other "EOF") }

/-- The client completes the handshake and then goes away: the second read fails. -/
def envNoRequest : Env :=
  { env with clientRead := fun k =>
      match k with
      | 0 => .ok [5, 1, 0]
      | _ => .error (.other "EOF") }

/-- The client advertises only method 2 (username/password). -/
def envNoAuthMissing : Env :=
  { env with clientRead := fun _ => .ok [5, 1, 2] }

/-- The client asks for BIND. -/
def envBind : Env :=
  { env with clientRead := fun k =>
      match k with
      | 0 => .ok [5, 1, 0]
      | _ => .ok [5, 2, 0, 1, 127, 0, 0, 1, 0x1F, 0x90] }

/-- The client sends a truncated request. -/
def envTruncated : Env :=
  { env with clientRead := fun k =>
      match k with
      | 0 => .ok [5, 1, 0]
      | _ => .ok [5, 1, 0, 1, 127, 0] }

/-- The dial capability fails. -/
def envDialFails : Env :=
  { env with dialContext := fun _ _ => .error (.other "connection refused") }

/-- The dial capability hands back an in-memory pipe, whose local address is the text
"pipe": splitting it into host and port fails. -/
def envPipe : Env :=
  { env with dialContext := fun _ _ => .ok { localAddr := "pipe" } }

/-- The request of the end-to-end scenario, decoded. -/
def connectRequest : request :=
  { command := Connect, addressType := IPv4, destination := "127.0.0.1", port := 8080 }

/-- The connection state when `handleRequest` hands over to `createReply` in the
end-to-end scenario, with an empty trace. -/
def readyToDial : State :=
  { conn := { server := none, request := some connectRequest }, reads := 2, trace := [] }

end Scenario

/-! ## Specification-side notions -/

/-- The advertised method bytes of an initiation packet, as the wire format defines them:
the `n` bytes `pkt[2], ..., pkt[2+n-1]`, where `n = pkt[1]`. -/
def advertisedMethods (pkt : List Byte) : List Byte :=
  match pkt[1]? with
  | some n => (pkt.drop 2).take n.val
  | none => []

/-- Structural well-formedness of an initiation packet: at least three bytes, version 5,
and at least `2 + n` bytes where `n` is the method count. -/
def wellFormedInit (pkt : List Byte) : Prop :=
  3 ≤ pkt.length ∧ pkt[0]? = some SOCKS5Version ∧
    ∃ n, pkt[1]? = some n ∧ 2 + n.val ≤ pkt.length

/-- The wire-level failure replies: the no-acceptable-auth reply, and the encodings of
the `GeneralFailure` and `CommandNotSupported` responses. -/
def failureReplies (w : Env) : List (List Byte) :=
  [ [SOCKS5Version, noAcceptableAuth],
    (w.createPacketFromResponse { reply := GeneralFailure }).1,
    (w.createPacketFromResponse { reply := CommandNotSupported }).1 ]

/-- The dial calls in a trace. -/
def dialCalls : List Event → List (String × String)
  | [] => []
  | .dial network addr :: rest => (network, addr) :: dialCalls rest
  | _ :: rest => dialCalls rest

/-- The copy tasks started in a trace, as (destination, source) pairs, in order. -/
def copyStarts : List Event → List (Endpoint × Endpoint)
  | [] => []
  | .goCopy dst src :: rest => (dst, src) :: copyStarts rest
  | _ :: rest => copyStarts rest

/-- The byte strings written to the client in a trace, in order. -/
def clientWrites : List Event → List (List Byte)
  | [] => []
  | .clientWrite buf :: rest => buf :: clientWrites rest
  | _ :: rest => clientWrites rest

/-! ## The handshake negotiator -/

theorem scanMethods_nil_iff (ms : List Byte) :
    scanMethods ms = .nil ↔ noAuthRequired ∈ ms := by
  induction ms with
  | nil => simp [scanMethods]
  | cons m rest ih =>
    by_cases h : m = noAuthRequired
    · simp [scanMethods, h]
    · have h2 : ¬ noAuthRequired = m := fun e => h e.symm
      simp [scanMethods, h, h2, ih]

theorem scanMethods_ne_panic (ms : List Byte) (p : Panic) : scanMethods ms ≠ .panic p := by
  induction ms with
  | nil => simp [scanMethods]
  | cons m rest ih =>
    by_cases h : m = noAuthRequired
    · simp [scanMethods, h]
    · simp [scanMethods, h, ih]

theorem scanMethods_cases (ms : List Byte) :
    scanMethods ms = .nil ∨ scanMethods ms = .error .noAcceptableAuthMethods := by
  induction ms with
  | nil => simp [scanMethods]
  | cons m rest ih =>
    by_cases h : m = noAuthRequired
    · simp [scanMethods, h]
    · simpa [scanMethods, h] using ih

/-- No input makes `HandleInitPacket` index or slice outside `pkt`. -/
theorem HandleInitPacket_ne_panic (pkt : List Byte) (p : Panic) :
    HandleInitPacket pkt ≠ .panic p := by
  match pkt with
  | [] => simp [HandleInitPacket]
  | [_] => simp [HandleInitPacket]
  | [_, _] => simp [HandleInitPacket]
  | a :: b :: c :: rest =>
    simp only [HandleInitPacket, List.length_cons, List.getElem?_cons_zero,
      List.getElem?_cons_succ, List.drop_succ_cons, List.drop_zero]
    have h3 : ¬ (rest.length + 1 + 1 + 1 < 3) := by omega
    have h2 : ¬ (rest.length + 1 + 1 + 1 < 2) := by omega
    simp only [h3, h2, if_false]
    split_ifs
    · simp
    · simp
    · exact scanMethods_ne_panic _ _

/-- On a well-formed initiation packet, what `HandleInitPacket` tests is whether the
no-auth value occurs anywhere after the first two bytes. -/
theorem HandleInitPacket_nil_iff (pkt : List Byte) (h : wellFormedInit pkt) :
    HandleInitPacket pkt = .nil ↔ noAuthRequired ∈ pkt.drop 2 := by
  obtain ⟨h3, h0, n, h1, hn⟩ := h
  match pkt, h3, h0, h1, hn with
  | a :: b :: c :: rest, _, h0, h1, hn =>
    simp at h0 h1
    subst h0 h1
    have h3 : ¬ (rest.length + 1 + 1 + 1 < 3) := by omega
    have h2 : ¬ (rest.length + 1 + 1 + 1 < 2) := by omega
    have hc : ¬ (rest.length + 1 + 1 + 1 < b.val + 2) := by simp at hn; omega
    simp [HandleInitPacket, h3, h2, hc, scanMethods_nil_iff]

/-- C1: the initiation packet `[5, 1, 2, 0]` is structurally well-formed and advertises
one method, the value 2; the no-auth value 0 is not among its advertised methods, and
yet `HandleInitPacket` accepts it (returns nil), because the loop ranges over every byte
after the second one and so reaches the trailing 0. -/
theorem HandleInitPacket_accepts_unadvertised_noauth :
    wellFormedInit [5, 1, 2, 0] ∧
    advertisedMethods [5, 1, 2, 0] = [2] ∧
    noAuthRequired ∉ advertisedMethods [5, 1, 2, 0] ∧
    HandleInitPacket [5, 1, 2, 0] = .nil :=
  ⟨⟨by decide, by decide, 1, by decide, by decide⟩, by decide, by decide, by decide⟩

/-- C2: on a malformed packet (fewer than three bytes, or a first byte other than 5, or
fewer than `2 + n` bytes where `n` is the second byte) `HandleInitPacket` returns an
error, and it does not panic on an out-of-range index or slice. -/
theorem HandleInitPacket_malformed (pkt : List Byte)
    (h : pkt.length < 3 ∨ pkt[0]? ≠ some SOCKS5Version ∨
      ∃ n, pkt[1]? = some n ∧ pkt.length < 2 + n.val) :
    (∃ err, HandleInitPacket pkt = .error err) ∧ ∀ p, HandleInitPacket pkt ≠ .panic p := by
  refine ⟨?_, HandleInitPacket_ne_panic pkt⟩
  match pkt, h with
  | [], _ => exact ⟨_, rfl⟩
  | [_], _ => exact ⟨_, rfl⟩
  | [_, _], _ => exact ⟨_, rfl⟩
  | a :: b :: c :: rest, h =>
    have h3 : ¬ (rest.length + 1 + 1 + 1 < 3) := by omega
    simp only [HandleInitPacket, List.length_cons, List.getElem?_cons_zero,
      List.getElem?_cons_succ, h3, if_false]
    by_cases hv : a = SOCKS5Version
    · by_cases hc : rest.length + 1 + 1 + 1 < b.val + 2
      · simp [hv, hc]
      · exfalso
        rcases h with h | h | ⟨n, h1, h2⟩
        · simp only [List.length_cons] at h
          omega
        · simp [hv] at h
        · simp at h1 h2
          subst h1
          omega
    · simp [hv]

/-- C2, at the packet `[5, 3, 0]`: three methods announced, one present. -/
theorem HandleInitPacket_malformed_witness :
    (∃ n, ([5, 3, 0] : List Byte)[1]? = some n ∧ ([5, 3, 0] : List Byte).length < 2 + n.val) ∧
    ((∃ err, HandleInitPacket [5, 3, 0] = .error err) ∧
      ∀ p, HandleInitPacket [5, 3, 0] ≠ .panic p) :=
  ⟨⟨3, by decide, by decide⟩,
   HandleInitPacket_malformed [5, 3, 0] (Or.inr (Or.inr ⟨3, by decide, by decide⟩))⟩

/-! ## The connection orchestrator -/

theorem dialCalls_append (xs ys : List Event) :
    dialCalls (xs ++ ys) = dialCalls xs ++ dialCalls ys := by
  induction xs with
  | nil => rfl
  | cons e rest ih => cases e <;> simp [dialCalls, ih]

theorem copyStarts_append (xs ys : List Event) :
    copyStarts (xs ++ ys) = copyStarts xs ++ copyStarts ys := by
  induction xs with
  | nil => rfl
  | cons e rest ih => cases e <;> simp [copyStarts, ih]

theorem clientWrites_append (xs ys : List Event) :
    clientWrites (xs ++ ys) = clientWrites xs ++ clientWrites ys := by
  induction xs with
  | nil => rfl
  | cons e rest ih => cases e <;> simp [clientWrites, ih]

/-- C3: when the first client read delivers a packet `p` of at most 257 bytes, then:
if `HandleInitPacket p` succeeds, `Run` reads (257-byte buffer), writes exactly
`[5, 0]`, and goes on to read the request; if `HandleInitPacket p` fails with `err`,
`Run` reads, writes exactly `[5, 255]`, and returns `err` with nothing else done: no
second read, no dial, no further write, no change to the connection. -/
theorem Run_init_reply (w : Env) (p : List Byte)
    (hread : w.clientRead 0 = .ok p) (hlen : p.length ≤ maxInitRequestSize) :
    (HandleInitPacket p = .nil →
      ∃ rest, (Run w State.init).1.trace =
        [.clientRead maxInitRequestSize, .clientWrite [0x05, 0x00],
         .clientRead w.maxRequestPacketSize] ++ rest) ∧
    (∀ err, HandleInitPacket p = .error err →
      Run w State.init =
        ({ conn := { server := none, request := none }, reads := 1,
           trace := [.clientRead maxInitRequestSize, .clientWrite [0x05, 0xFF]] },
         .error err)) := by
  have htake : p.take maxInitRequestSize = p := List.take_of_length_le hlen
  constructor
  · intro hok
    simp only [Run, clientRead, State.init, hread, htake, hok, handleRequest, State.emit]
    cases hr : w.clientRead (0 + 1) with
    | error e => exact ⟨[], by simp [SOCKS5Version, noAuthRequired]⟩
    | ok pkt =>
      simp only []
      cases hp : w.parseRequestFromPacket (pkt.take w.maxRequestPacketSize) with
      | error e => exact ⟨_, by simp [SOCKS5Version, noAuthRequired]; rfl⟩
      | ok req =>
        simp only []
        by_cases hc : req.command = Connect
        · simp only [hc, ne_eq, not_true_eq_false, if_false, createReply, State.emit]
          split <;> first
            | exact ⟨_, by simp [SOCKS5Version, noAuthRequired]; rfl⟩
            | (split <;> first
                | exact ⟨_, by simp [SOCKS5Version, noAuthRequired]; rfl⟩
                | (split <;> exact ⟨_, by simp [SOCKS5Version, noAuthRequired]; rfl⟩))
        · simp only [hc, ne_eq, not_false_eq_true, if_true]
          exact ⟨_, by simp [SOCKS5Version, noAuthRequired]; rfl⟩
  · intro err herr
    simp [Run, clientRead, State.init, hread, htake, herr, State.emit, SOCKS5Version,
      noAcceptableAuth]

/-- C3, for a client that advertises only method 2: the reject branch is taken. -/
theorem Run_init_reply_witness :
    Scenario.envNoAuthMissing.clientRead 0 = .ok [5, 1, 2] ∧
    ([5, 1, 2] : List Byte).length ≤ maxInitRequestSize ∧
    HandleInitPacket [5, 1, 2] = .error .noAcceptableAuthMethods ∧
    Run Scenario.envNoAuthMissing State.init =
      ({ conn := { server := none, request := none }, reads := 1,
         trace := [.clientRead maxInitRequestSize, .clientWrite [0x05, 0xFF]] },
       .error .noAcceptableAuthMethods) :=
  ⟨rfl, by decide, by decide,
   (Run_init_reply Scenario.envNoAuthMissing [5, 1, 2] rfl (by decide)).2 _ (by decide)⟩

/-- C4: when the client read delivers a packet that the request decoder decodes to a
request whose command is not Connect (Bind and UDPAssociate among them), `handleRequest`
does one read and one write, the write being exactly the encoding of the response with
reply code `CommandNotSupported`; it returns an error; it makes no dial call and leaves
the connection fields as they were. -/
theorem handleRequest_command_not_supported (w : Env) (s : State) (pkt : List Byte)
    (req : request)
    (hread : w.clientRead s.reads = .ok pkt)
    (hparse : w.parseRequestFromPacket (pkt.take w.maxRequestPacketSize) = .ok req)
    (hcmd : req.command ≠ Connect) :
    (handleRequest w s).1.trace =
      s.trace ++ [.clientRead w.maxRequestPacketSize,
        .clientWrite (w.createPacketFromResponse { reply := CommandNotSupported }).1] ∧
    (handleRequest w s).2 = .error (.unsupportedCommand req.command) ∧
    dialCalls (handleRequest w s).1.trace = dialCalls s.trace ∧
    (handleRequest w s).1.conn = s.conn := by
  simp [handleRequest, clientRead, hread, hparse, hcmd, State.emit, dialCalls_append,
    dialCalls]

/-- C4, for a client that asks for BIND after the handshake. -/
theorem handleRequest_command_not_supported_witness :
    Scenario.envBind.clientRead 1 = .ok [5, 2, 0, 1, 127, 0, 0, 1, 0x1F, 0x90] ∧
    Bind ≠ Connect ∧
    (handleRequest Scenario.envBind { State.init with reads := 1 }).1.trace =
      [.clientRead 262, .clientWrite [5, 7, 0, 0]] ∧
    (handleRequest Scenario.envBind { State.init with reads := 1 }).2 =
      .error (.unsupportedCommand Bind) :=
  have h := handleRequest_command_not_supported Scenario.envBind
    { State.init with reads := 1 } [5, 2, 0, 1, 127, 0, 0, 1, 0x1F, 0x90]
    { command := Bind, addressType := IPv4, destination := "127.0.0.1", port := 8080 }
    rfl rfl (by decide)
  ⟨rfl, by decide, h.1, h.2.1⟩

/-- C5: when the client read delivers a packet on which the request decoder returns an
error, `handleRequest` does one read and one write, the write being exactly the encoding
of the response with reply code `GeneralFailure`; it returns the error of the decoder; it
makes no dial call and leaves the connection fields as they were. -/
theorem handleRequest_decode_error (w : Env) (s : State) (pkt : List Byte) (err : Error)
    (hread : w.clientRead s.reads = .ok pkt)
    (hparse : w.parseRequestFromPacket (pkt.take w.maxRequestPacketSize) = .error err) :
    (handleRequest w s).1.trace =
      s.trace ++ [.clientRead w.maxRequestPacketSize,
        .clientWrite (w.createPacketFromResponse { reply := GeneralFailure }).1] ∧
    (handleRequest w s).2 = .error err ∧
    dialCalls (handleRequest w s).1.trace = dialCalls s.trace ∧
    (handleRequest w s).1.conn = s.conn := by
  simp [handleRequest, clientRead, hread, hparse, State.emit, dialCalls_append, dialCalls]

/-- C5, for a client that sends a truncated request after the handshake. -/
theorem handleRequest_decode_error_witness :
    Scenario.envTruncated.clientRead 1 = .ok [5, 1, 0, 1, 127, 0] ∧
    (handleRequest Scenario.envTruncated { State.init with reads := 1 }).1.trace =
      [.clientRead 262, .clientWrite [5, 1, 0, 0]] ∧
    (handleRequest Scenario.envTruncated { State.init with reads := 1 }).2 =
      .error (.other "invalid request") :=
  have h := handleRequest_decode_error Scenario.envTruncated
    { State.init with reads := 1 } [5, 1, 0, 1, 127, 0] (.other "invalid request")
    rfl rfl
  ⟨rfl, h.1, h.2.1⟩

/-- C6: when the connection holds a request and the dial capability, called with "tcp"
and the text destination, colon, port, returns an error, `createReply` performs the dial
call and then one write, exactly the encoding of the response with reply code
`GeneralFailure`; it returns the dial error; the connection fields, the destination
stream among them, are left as they were (nothing is stored) and no copy task is
started. -/
theorem createReply_dial_error (w : Env) (s : State) (req : request) (err : Error)
    (hreq : s.conn.request = some req)
    (hdial : w.dialContext "tcp" (req.destination ++ ":" ++ toString req.port.val) =
      .error err) :
    (createReply w s).1.trace =
      s.trace ++ [.dial "tcp" (req.destination ++ ":" ++ toString req.port.val),
        .clientWrite (w.createPacketFromResponse { reply := GeneralFailure }).1] ∧
    (createReply w s).2 = .error err ∧
    (createReply w s).1.conn = s.conn ∧
    copyStarts (createReply w s).1.trace = copyStarts s.trace := by
  simp [createReply, hreq, hdial, State.emit, copyStarts_append, copyStarts]

/-- C6, for the CONNECT request of the end-to-end scenario and a dial capability that
refuses. -/
theorem createReply_dial_error_witness :
    Scenario.readyToDial.conn.request = some Scenario.connectRequest ∧
    Scenario.envDialFails.dialContext "tcp" "127.0.0.1:8080" =
      .error (.other "connection refused") ∧
    (createReply Scenario.envDialFails Scenario.readyToDial).1.trace =
      [.dial "tcp" "127.0.0.1:8080", .clientWrite [5, 1, 0, 0]] ∧
    (createReply Scenario.envDialFails Scenario.readyToDial).2 =
      .error (.other "connection refused") ∧
    (createReply Scenario.envDialFails Scenario.readyToDial).1.conn.server = none :=
  have h := createReply_dial_error Scenario.envDialFails Scenario.readyToDial
    Scenario.connectRequest (.other "connection refused") rfl rfl
  ⟨rfl, rfl, h.1, h.2.1, by rw [h.2.2.1]; rfl⟩

/-- Whenever the dial succeeds and the local address splits, the effects of `createReply`
are the dial call, the two copy-task starts, and one client write, in this order. -/
theorem createReply_dial_ok_trace (w : Env) (s : State) (req : request) (srv : NetConn)
    (hostport : String × String)
    (hreq : s.conn.request = some req)
    (hdial : w.dialContext "tcp" (req.destination ++ ":" ++ toString req.port.val) = .ok srv)
    (hsplit : w.splitHostPort srv.localAddr = .ok hostport) :
    ∃ buf, (createReply w s).1.trace =
      s.trace ++ [.dial "tcp" (req.destination ++ ":" ++ toString req.port.val),
        .goCopy .client .server, .goCopy .server .client, .clientWrite buf] := by
  obtain ⟨serverAddr, serverPortStr⟩ := hostport
  simp only [createReply, hreq, hdial, hsplit, State.emit]
  split <;> simp

/-- C7: in the end-to-end scenario (the dial succeeds, the outbound stream is bound to
127.0.0.1:9000) the effects of `createReply` are, in order: the dial call, the start of
the copy task destination-to-client, the start of the copy task client-to-destination,
and only then the write of the reply packet. Both copy tasks are started before the
reply is written. -/
theorem createReply_spawns_before_reply :
    createReply Scenario.env Scenario.readyToDial =
      ({ conn := { server := some { localAddr := "127.0.0.1:9000" },
                   request := some Scenario.connectRequest },
         reads := 2,
         trace := [.dial "tcp" "127.0.0.1:8080",
                   .goCopy .client .server,
                   .goCopy .server .client,
                   .clientWrite [5, 0, 0, 1, 127, 0, 0, 1, 0x23, 0x28]] },
       .nil) := by
  decide

/-- The dial calls of `createReply`: one, with "tcp" and destination, colon, port, when
a request is held. -/
theorem createReply_dialCalls (w : Env) (s : State) (req : request)
    (hreq : s.conn.request = some req) :
    dialCalls (createReply w s).1.trace =
      dialCalls s.trace ++ [("tcp", req.destination ++ ":" ++ toString req.port.val)] := by
  simp only [createReply, hreq, State.emit]
  repeat' split
  all_goals simp [dialCalls_append, dialCalls]

/-- C8: in a run of `Run` from a fresh connection the dial capability is called at most
once; and every dial call is preceded by a first read whose packet `HandleInitPacket`
accepted and by a second read whose packet the request decoder decoded, without error,
to a request with command Connect, the arguments of the call being "tcp" and the text
made of the destination of that request, a colon, and its port in decimal. -/
theorem Run_dial_at_most_once (w : Env) :
    (dialCalls (Run w State.init).1.trace).length ≤ 1 ∧
    ∀ call ∈ dialCalls (Run w State.init).1.trace,
      ∃ p0 p1 req,
        w.clientRead 0 = .ok p0 ∧
        HandleInitPacket (p0.take maxInitRequestSize) = .nil ∧
        w.clientRead 1 = .ok p1 ∧
        w.parseRequestFromPacket (p1.take w.maxRequestPacketSize) = .ok req ∧
        req.command = Connect ∧
        call = ("tcp", req.destination ++ ":" ++ toString req.port.val) := by
  cases h0 : w.clientRead 0 with
  | error e => simp [Run, clientRead, State.init, h0, dialCalls]
  | ok p0 =>
    cases hi : HandleInitPacket (p0.take maxInitRequestSize) with
    | panic p => simp [Run, clientRead, State.init, h0, hi, dialCalls]
    | error e => simp [Run, clientRead, State.init, h0, hi, State.emit, dialCalls]
    | nil =>
      cases h1 : w.clientRead 1 with
      | error e =>
        simp [Run, handleRequest, clientRead, State.init, h0, hi, h1, State.emit, dialCalls]
      | ok p1 =>
        cases hp : w.parseRequestFromPacket (p1.take w.maxRequestPacketSize) with
        | error e =>
          simp [Run, handleRequest, clientRead, State.init, h0, hi, h1, hp, State.emit,
            dialCalls]
        | ok req =>
          by_cases hc : req.command = Connect
          · have hrun : Run w State.init =
                createReply w
                  { conn := { server := none, request := some req }, reads := 2,
                    trace := [.clientRead maxInitRequestSize,
                      .clientWrite [SOCKS5Version, noAuthRequired],
                      .clientRead w.maxRequestPacketSize] } := by
              simp [Run, handleRequest, clientRead, State.init, h0, hi, h1, hp, hc,
                State.emit]
            rw [hrun, createReply_dialCalls w _ req rfl]
            simp only [dialCalls, List.nil_append, List.length_singleton, le_refl,
              List.mem_singleton, true_and]
            intro call hcall
            exact ⟨p0, p1, req, rfl, hi, rfl, hp, hc, hcall⟩
          · simp [Run, handleRequest, clientRead, State.init, h0, hi, h1, hp, hc,
              State.emit, dialCalls]

/-- C8, in the end-to-end scenario: the one dial call is for 127.0.0.1:8080. -/
theorem Run_dial_at_most_once_witness :
    dialCalls (Run Scenario.env State.init).1.trace = [("tcp", "127.0.0.1:8080")] ∧
    ((dialCalls (Run Scenario.env State.init).1.trace).length ≤ 1 ∧
     ∀ call ∈ dialCalls (Run Scenario.env State.init).1.trace,
      ∃ p0 p1 req,
        Scenario.env.clientRead 0 = .ok p0 ∧
        HandleInitPacket (p0.take maxInitRequestSize) = .nil ∧
        Scenario.env.clientRead 1 = .ok p1 ∧
        Scenario.env.parseRequestFromPacket (p1.take Scenario.env.maxRequestPacketSize) =
          .ok req ∧
        req.command = Connect ∧
        call = ("tcp", req.destination ++ ":" ++ toString req.port.val)) :=
  ⟨by decide, Run_dial_at_most_once Scenario.env⟩

/-- C9 fails at a failed client read: when the first read fails, `Run` returns the read
error having written nothing at all to the client; when the handshake succeeds and the
second read fails, `Run` returns the read error having written only the handshake
acceptance `[5, 0]`, which is none of the failure replies. In both runs no copy task has
been started. -/
theorem Run_read_error_no_failure_reply :
    ((Run Scenario.envNoInit State.init).2 = .error (.other "EOF") ∧
     clientWrites (Run Scenario.envNoInit State.init).1.trace = [] ∧
     copyStarts (Run Scenario.envNoInit State.init).1.trace = []) ∧
    ((Run Scenario.envNoRequest State.init).2 = .error (.other "EOF") ∧
     clientWrites (Run Scenario.envNoRequest State.init).1.trace = [[0x05, 0x00]] ∧
     [0x05, 0x00] ∉ failureReplies Scenario.envNoRequest ∧
     copyStarts (Run Scenario.envNoRequest State.init).1.trace = []) := by
  decide

/-- C9, amended: when `Run`, started on a fresh connection, returns an error, every
client read it performed succeeded, and the local address of the destination stream (if
one was stored) splits into host and port, then the last thing `Run` wrote to the client
is one of the failure replies: `[5, 255]`, or the encoding of the response with reply
code `GeneralFailure` or `CommandNotSupported`. -/
theorem Run_error_failure_reply (w : Env) (err : Error)
    (hret : (Run w State.init).2 = .error err)
    (hreads : ∀ k, k < (Run w State.init).1.reads → ∃ p, w.clientRead k = .ok p)
    (hsplit : ∀ srv, (Run w State.init).1.conn.server = some srv →
      ∃ r, w.splitHostPort srv.localAddr = .ok r) :
    ∃ buf, (clientWrites (Run w State.init).1.trace).getLast? = some buf ∧
      buf ∈ failureReplies w := by
  cases h0 : w.clientRead 0 with
  | error e =>
    have hr : (Run w State.init).1.reads = 1 := by
      simp [Run, clientRead, State.init, h0]
    obtain ⟨p, hp⟩ := hreads 0 (by omega)
    simp [h0] at hp
  | ok p0 =>
    cases hi : HandleInitPacket (p0.take maxInitRequestSize) with
    | panic p => simp [Run, clientRead, State.init, h0, hi] at hret
    | error e =>
      exact ⟨[SOCKS5Version, noAcceptableAuth], by
        simp [Run, clientRead, State.init, h0, hi, State.emit, clientWrites],
        by simp [failureReplies]⟩
    | nil =>
      cases h1 : w.clientRead 1 with
      | error e =>
        have hr : (Run w State.init).1.reads = 2 := by
          simp [Run, handleRequest, clientRead, State.init, h0, hi, h1, State.emit]
        obtain ⟨p, hp⟩ := hreads 1 (by omega)
        simp [h1] at hp
      | ok p1 =>
        cases hp : w.parseRequestFromPacket (p1.take w.maxRequestPacketSize) with
        | error e =>
          exact ⟨(w.createPacketFromResponse { reply := GeneralFailure }).1, by
            simp [Run, handleRequest, clientRead, State.init, h0, hi, h1, hp, State.emit,
              clientWrites],
            by simp [failureReplies]⟩
        | ok req =>
          by_cases hc : req.command = Connect
          · have hrun : Run w State.init =
                createReply w
                  { conn := { server := none, request := some req }, reads := 2,
                    trace := [.clientRead maxInitRequestSize,
                      .clientWrite [SOCKS5Version, noAuthRequired],
                      .clientRead w.maxRequestPacketSize] } := by
              simp [Run, handleRequest, clientRead, State.init, h0, hi, h1, hp, hc,
                State.emit]
            rw [hrun] at hret hsplit ⊢
            cases hd : w.dialContext "tcp"
                (req.destination ++ ":" ++ toString req.port.val) with
            | error e =>
              exact ⟨(w.createPacketFromResponse { reply := GeneralFailure }).1, by
                simp [createReply, hd, State.emit, clientWrites],
                by simp [failureReplies]⟩
            | ok srv =>
              cases hs : w.splitHostPort srv.localAddr with
              | error e =>
                obtain ⟨r, hr⟩ := hsplit srv (by simp [createReply, hd, hs])
                simp [hs] at hr
              | ok hostport =>
                obtain ⟨serverAddr, serverPortStr⟩ := hostport
                cases he : w.createPacketFromResponse
                    { reply := Success, addrType := classifyAddr w serverAddr,
                      bindAddr := serverAddr, bindPort := uint16 (w.atoi serverPortStr) } with
                | mk buf eerr =>
                  cases eerr with
                  | none => simp [createReply, hd, hs, he, State.emit] at hret
                  | some e =>
                    exact ⟨(w.createPacketFromResponse { reply := GeneralFailure }).1, by
                      simp [createReply, hd, hs, he, State.emit, clientWrites_append,
                        clientWrites],
                      by simp [failureReplies]⟩
          · exact ⟨(w.createPacketFromResponse { reply := CommandNotSupported }).1, by
              simp [Run, handleRequest, clientRead, State.init, h0, hi, h1, hp, hc,
                State.emit, clientWrites],
              by simp [failureReplies]⟩

/-- C9 amended, for a dial capability that refuses: the last write is the encoding of the
`GeneralFailure` response. -/
theorem Run_error_failure_reply_witness :
    (Run Scenario.envDialFails State.init).2 = .error (.other "connection refused") ∧
    (Run Scenario.envDialFails State.init).1.reads = 2 ∧
    Scenario.envDialFails.clientRead 0 = .ok [5, 1, 0] ∧
    Scenario.envDialFails.clientRead 1 = .ok [5, 1, 0, 1, 127, 0, 0, 1, 0x1F, 0x90] ∧
    (Run Scenario.envDialFails State.init).1.conn.server = none ∧
    clientWrites (Run Scenario.envDialFails State.init).1.trace =
      [[5, 0], [5, 1, 0, 0]] ∧
    ∃ buf, (clientWrites (Run Scenario.envDialFails State.init).1.trace).getLast? =
        some buf ∧ buf ∈ failureReplies Scenario.envDialFails :=
  ⟨by decide, by decide, rfl, rfl, by decide, by decide,
   Run_error_failure_reply Scenario.envDialFails (.other "connection refused") (by decide)
     (fun k hk => by
       have h2 : (Run Scenario.envDialFails State.init).1.reads = 2 := by decide
       rw [h2] at hk
       interval_cases k <;> exact ⟨_, rfl⟩)
     (fun srv h => by
       have h2 : (Run Scenario.envDialFails State.init).1.conn.server = none := by decide
       rw [h2] at h
       cases h)⟩

/-- C10 fails when the dial succeeds and `Run` fails afterwards: with a dial capability
that hands back an in-memory pipe, `Run` stores the destination stream and returns the
error of splitting its local address; the handler then logs and closes the client, and
that is all: the destination stream is still held and no close of it has happened. -/
theorem handler_leaves_destination_open :
    Run Scenario.envPipe State.init =
      ({ conn := { server := some { localAddr := "pipe" },
                   request := some Scenario.connectRequest },
         reads := 2,
         trace := [.clientRead 257, .clientWrite [5, 0], .clientRead 262,
                   .dial "tcp" "127.0.0.1:8080"] },
       .error (.other "address pipe: missing port in address")) ∧
    handler Scenario.envPipe =
      { conn := { server := some { localAddr := "pipe" },
                  request := some Scenario.connectRequest },
        reads := 2,
        trace := [.clientRead 257, .clientWrite [5, 0], .clientRead 262,
                  .dial "tcp" "127.0.0.1:8080",
                  .logf
                    "socks5: client connection failed: address pipe: missing port in address",
                  .clientClose] } ∧
    Event.serverClose ∉ (handler Scenario.envPipe).trace := by
  decide

/-- No step of `createReply` closes the destination stream. -/
theorem createReply_no_serverClose (w : Env) (s : State)
    (h : Event.serverClose ∉ s.trace) : Event.serverClose ∉ (createReply w s).1.trace := by
  simp only [createReply, State.emit]
  repeat' split
  all_goals simp [h]

/-- No step of `handleRequest` closes the destination stream. -/
theorem handleRequest_no_serverClose (w : Env) (s : State)
    (h : Event.serverClose ∉ s.trace) : Event.serverClose ∉ (handleRequest w s).1.trace := by
  cases hr : w.clientRead s.reads with
  | error e => simp [handleRequest, clientRead, hr, h]
  | ok data =>
    cases hp : w.parseRequestFromPacket (data.take w.maxRequestPacketSize) with
    | error e => simp [handleRequest, clientRead, hr, hp, State.emit, h]
    | ok req =>
      by_cases hc : req.command = Connect
      · simp only [handleRequest, clientRead, hr, hp, hc, ne_eq, not_true_eq_false,
          if_false]
        apply createReply_no_serverClose
        simp [h]
      · simp [handleRequest, clientRead, hr, hp, hc, State.emit, h]

/-- No step of `Run` closes the destination stream. -/
theorem Run_no_serverClose (w : Env) (s : State)
    (h : Event.serverClose ∉ s.trace) : Event.serverClose ∉ (Run w s).1.trace := by
  cases hr : w.clientRead s.reads with
  | error e => simp [Run, clientRead, hr, h]
  | ok data =>
    cases hi : HandleInitPacket (data.take maxInitRequestSize) with
    | panic p => simp [Run, clientRead, hr, hi, h]
    | error e => simp [Run, clientRead, hr, hi, State.emit, h]
    | nil =>
      simp only [Run, clientRead, hr, hi]
      apply handleRequest_no_serverClose
      simp [State.emit, h]

/-- C10, amended: when `Run` returns an error, the handler logs it and then closes the
client stream, these being its last two effects, and it leaves the connection fields as
`Run` left them; neither `Run` nor the handler closes a destination stream. -/
theorem handler_closes_client (w : Env) (err : Error)
    (hret : (Run w State.init).2 = .error err) :
    (handler w).trace =
      (Run w State.init).1.trace ++
        [.logf ("socks5: client connection failed: " ++ err.msg), .clientClose] ∧
    (handler w).conn = (Run w State.init).1.conn ∧
    Event.serverClose ∉ (handler w).trace := by
  have hns := Run_no_serverClose w State.init (by simp [State.init])
  have hh : handler w =
      ((Run w State.init).1.emit
        (.logf ("socks5: client connection failed: " ++ err.msg))).emit .clientClose := by
    unfold handler
    split
    · rename_i s e heq
      rw [heq] at hret
      simp at hret
      subst hret
      simp [heq]
    · rename_i s r hne heq
      rw [heq] at hret
      simp at hret
      exact absurd hret (hne err)
  rw [hh]
  simp [State.emit, hns]

/-- C10 amended, for a dial capability that refuses. -/
theorem handler_closes_client_witness :
    (Run Scenario.envDialFails State.init).2 = .error (.other "connection refused") ∧
    (handler Scenario.envDialFails).trace =
      [.clientRead 257, .clientWrite [5, 0], .clientRead 262,
       .dial "tcp" "127.0.0.1:8080", .clientWrite [5, 1, 0, 0],
       .logf "socks5: client connection failed: connection refused", .clientClose] ∧
    Event.serverClose ∉ (handler Scenario.envDialFails).trace :=
  have h := handler_closes_client Scenario.envDialFails (.other "connection refused")
    (by decide)
  ⟨by decide, by decide, h.2.2⟩

end Socks5
